import Mathlib

/-!
Shallow embedding of the revelryengine/gltf loader core:
version/extension support gate, GLTF construction and reference
dereferencing, load orchestration, the binary (GLB) container reader,
the extension registry, and the Draco decompression worker protocol.

Definitions are translated from src/lib/gltf.js, src/lib/mesh.js and the
unnamed source part (Values record and KHR_draco_mesh_compression
extension).  Pieces of the repository that are referenced but whose code
is not part of the sources (GLTFProperty.dereference, GLTFProperty.loadOnce,
WorkerHelper) are modelled from the specification and marked as such in
their doc comments.
-/

set_option autoImplicit false

namespace RevGltf

/-- Decidable equality for Except, used to evaluate witnesses on concrete
outcomes. -/
instance {ε α : Type} [DecidableEq ε] [DecidableEq α] : DecidableEq (Except ε α) := fun x y =>
  match x, y with
  | Except.ok a, Except.ok b =>
    if h : a = b then Decidable.isTrue (by rw [h])
    else Decidable.isFalse (by intro hc; cases hc; exact h rfl)
  | Except.error e, Except.error f =>
    if h : e = f then Decidable.isTrue (by rw [h])
    else Decidable.isFalse (by intro hc; cases hc; exact h rfl)
  | Except.ok _, Except.error _ => Decidable.isFalse (by intro hc; cases hc)
  | Except.error _, Except.ok _ => Decidable.isFalse (by intro hc; cases hc)

/-! ## Errors thrown by the loader core -/

/-- Errors raised synchronously by the loader core: the two throw sites of
ensureSupport in src/lib/gltf.js, the ReferenceError of the dereferencing
pass, and the JS TypeError that results from splitting an undefined
version string. -/
inductive GltfError where
  /-- thrown as Error with text: Unsupported glTF version (carries the string) -/
  | unsupportedVersion (v : String)
  /-- thrown as Error with text: Unsupported glTF extension (carries the name) -/
  | unsupportedExtension (name : String)
  /-- out-of-bounds index found by the dereferencing pass -/
  | referenceError
  /-- JS TypeError: calling split on undefined when neither version nor minVersion is present -/
  | typeError
  deriving DecidableEq, Repr

/-! ## Version parsing (ensureSupport, src/lib/gltf.js lines 44-59) -/

/-- Splits a character list on the dot separator, with the semantics of JS
String.prototype.split with a one-character separator: the empty input
yields one empty component, and a trailing separator yields a trailing
empty component. -/
def splitCharsOnDot : List Char → List (List Char)
  | [] => [[]]
  | c :: rest =>
    match splitCharsOnDot rest with
    | [] => [[c]]
    | cur :: others => if c = '.' then [] :: cur :: others else (c :: cur) :: others

/-- JS split of a string on the dot separator. -/
def jsSplitOnDot (s : String) : List String :=
  (splitCharsOnDot s.data).map String.mk

/-- Accumulates the value of a decimal digit string; none on any non-digit
character. -/
def parseDigitsAux : List Char → Nat → Option Nat
  | [], acc => some acc
  | c :: rest, acc =>
    if 48 ≤ c.toNat ∧ c.toNat ≤ 57 then parseDigitsAux rest (acc * 10 + (c.toNat - 48))
    else none

/-- JS Number() applied to one component of a version string split on a dot.
An empty string converts to 0, a string of decimal digits converts to its
value, and any other component (as well as an absent one) behaves as NaN,
which we encode as none: NaN compares unequal to 2 and NaN greater-than
comparisons are false, matching how the two comparisons in ensureSupport
consume the value. -/
def jsNumber (s : String) : Option Nat :=
  if s.data = [] then some 0 else parseDigitsAux s.data 0

/-- JS truthiness of an optional string: undefined and the empty string are
falsy, every other string is truthy. -/
def jsTruthy : Option String → Bool
  | none => false
  | some s => s ≠ ""

/-- JS `a || b` on optional strings: the left operand when truthy, else the right. -/
def jsOrElse (a b : Option String) : Option String :=
  if jsTruthy a then a else b

/-- SUPPORTED_VERSION.major from src/lib/gltf.js line 44. -/
def SUPPORTED_MAJOR : Nat := 2

/-- SUPPORTED_VERSION.minor from src/lib/gltf.js line 44. -/
def SUPPORTED_MINOR : Nat := 0

/-- The first component of a version string split on dots, converted with
Number() (line 48 of src/lib/gltf.js). -/
def versionMajor (vs : String) : Option Nat :=
  ((jsSplitOnDot vs).get? 0).bind jsNumber

/-- The second component of a version string split on dots, converted with
Number(); none when the component is absent (undefined) or not numeric
(NaN). -/
def versionMinor (vs : String) : Option Nat :=
  ((jsSplitOnDot vs).get? 1).bind jsNumber

/-- The JS comparison minor greater-than SUPPORTED_VERSION.minor of line 50:
false when the minor component is NaN or undefined. -/
def minorExceeds (vs : String) : Bool :=
  match versionMinor vs with
  | some m => decide (m > SUPPORTED_MINOR)
  | none => false

/-- Embeds ensureSupport from src/lib/gltf.js lines 47-59: splits
minVersion-or-version on dots, converts the first two components with
Number(), throws Unsupported glTF version when the major part differs from 2
or when a truthy minVersion has minor part greater than 0, then throws
Unsupported glTF extension at the first name of extensionsRequired that is
not in the registry.  The parameters mirror the destructured JS parameter
object (asset.version, asset.minVersion, extensionsRequired); the registry
membership test is abstracted as a list of registered extension names. -/
def ensureSupport (version minVersion : Option String) (extensionsRequired registered : List String) :
    Except GltfError Unit :=
  match jsOrElse minVersion version with
  | none => throw GltfError.typeError
  | some verStr =>
    if versionMajor verStr ≠ some SUPPORTED_MAJOR ∨ (jsTruthy minVersion ∧ minorExceeds verStr) then
      throw (GltfError.unsupportedVersion verStr)
    else
      match extensionsRequired.find? (fun ext => ext ∉ registered) with
      | some ext => throw (GltfError.unsupportedExtension ext)
      | none => pure ()

/-! ## GLTF construction and the scene reference field
(src/lib/gltf.js lines 89-226) -/

/-- Value held by a reference field of a constructed record: either still the
wire-format integer index, or a resolved object reference, or the JS value
undefined.  The payload of a resolved Scene is kept abstract as a Nat since
leaf-record construction is plain field copying. -/
inductive JsRef (α : Type) where
  | undef
  | idx (i : Int)
  | obj (a : α)
  deriving DecidableEq, Repr

/-- The subset of the glTF root JSON document needed by the embedded
constructor: the asset version fields, the required-extension names, the
scenes array (payloads abstracted) and the optional default-scene index. -/
structure GltfDoc where
  version : Option String
  minVersion : Option String
  extensionsRequired : List String
  scenes : List Nat
  scene : Option Int
  deriving DecidableEq, Repr

/-- The fields of a constructed GLTF record that the claims examine: the
scenes collection and the default-scene reference field. -/
structure GLTFRec where
  scenes : List Nat
  scene : JsRef Nat
  deriving DecidableEq, Repr

/-- JS array indexing this.scenes[scene] as performed on line 200 of
src/lib/gltf.js: an absent index, a negative index, or an index at or past
the end all produce undefined; otherwise the element at that position. -/
def jsIndexScenes (scenes : List Nat) : Option Int → JsRef Nat
  | none => JsRef.undef
  | some i =>
    if h : 0 ≤ i ∧ i.toNat < scenes.length then
      JsRef.obj (scenes.get ⟨i.toNat, h.2⟩)
    else
      JsRef.undef

/-- Modelled from the spec: the single-index rule of the Dereferencer
(GLTFProperty.dereference lives in gltf-property.js, which is not among the
sources).  If the field value is an integer, replace it with
collection[index], failing with ReferenceError when the index is out of the
collection bounds; a value that is already an object reference or undefined
is skipped. -/
def dereferenceSingleIndex {α : Type} (collection : List α) : JsRef α → Except GltfError (JsRef α)
  | JsRef.idx i =>
    if h : 0 ≤ i ∧ i.toNat < collection.length then
      pure (JsRef.obj (collection.get ⟨i.toNat, h.2⟩))
    else
      throw GltfError.referenceError
  | JsRef.undef => pure JsRef.undef
  | JsRef.obj a => pure (JsRef.obj a)

/-- The dereferencing pass over the embedded GLTF record: of the
referenceFields of GLTF (src/lib/gltf.js lines 212-226) the only
collection-type entry is scene over scenes; the sub entries recurse into
leaf records whose construction is out of the modelled scope.  The scene
field is rewritten by the single-index rule against the scenes collection. -/
def GLTFRec.dereference (g : GLTFRec) : Except GltfError GLTFRec := do
  let scene ← dereferenceSingleIndex g.scenes g.scene
  pure { g with scene := scene }

/-- Embeds the GLTF constructor of src/lib/gltf.js lines 95-210 restricted to
the fields the claims examine: it first runs ensureSupport synchronously,
then builds the scenes collection, assigns this.scene = this.scenes[scene]
directly (line 200), and finally runs the dereferencing pass (line 209). -/
def GLTF.construct (doc : GltfDoc) (registered : List String) : Except GltfError GLTFRec := do
  ensureSupport doc.version doc.minVersion doc.extensionsRequired registered
  let g : GLTFRec := { scenes := doc.scenes, scene := jsIndexScenes doc.scenes doc.scene }
  g.dereference

/-! ## loadOnce memoization (GLTFProperty.loadOnce is not among the sources) -/

/-- Per-record load state: the memoized outcome of the first load invocation
(none while no invocation has happened) together with a count of how many
times the underlying fetch/decode side effect has been triggered. -/
structure LoadState (ε α : Type) where
  memo : Option (Except ε α)
  fetchCount : Nat

/-- A record that has never been loaded: no memoized outcome, no side effect
triggered. -/
def LoadState.fresh {ε α : Type} : LoadState ε α := { memo := none, fetchCount := 0 }

/-- Modelled from the spec: loadOnce of GLTFProperty (gltf-property.js is not
among the sources).  A Record memoizes the in-flight or completed load
outcome; the first caller triggers the underlying fetch/decode exactly once
and stores its outcome, and every later caller receives the memoized outcome
without re-triggering anything.  Because the memo is installed synchronously
before any suspension point, N concurrent callers in the single-threaded
host behave as N sequential invocations of this step. -/
def loadOnce {ε α : Type} (run : Except ε α) (s : LoadState ε α) :
    LoadState ε α × Except ε α :=
  match s.memo with
  | some r => (s, r)
  | none => ({ memo := some run, fetchCount := s.fetchCount + 1 }, run)

/-- Iterates loadOnce n times from a given state, collecting the outcome each
caller observes (first caller first). -/
def loadOnceN {ε α : Type} (run : Except ε α) (s : LoadState ε α) :
    Nat → LoadState ε α × List (Except ε α)
  | 0 => (s, [])
  | n + 1 =>
    let (s1, r) := loadOnce run s
    let (s2, rs) := loadOnceN run s1 n
    (s2, r :: rs)

/-! ## Promise.all and the load fan-out
(GLTF.load, src/lib/gltf.js lines 257-271; Mesh.load, src/lib/mesh.js
lines 43-45) -/

/-- Outcome of JS Promise.all over a list of settled child outcomes: fulfils
with the list of values when every child fulfils, and rejects with a failing
child error otherwise (in the sequential model, the first in array order). -/
def promiseAll {ε α : Type} : List (Except ε α) → Except ε (List α)
  | [] => Except.ok []
  | x :: xs =>
    match x with
    | Except.error e => Except.error e
    | Except.ok a =>
      match promiseAll xs with
      | Except.ok as => Except.ok (a :: as)
      | Except.error e => Except.error e

/-- The collections array of GLTF.load, src/lib/gltf.js lines 260-263, listing
which of the root collections the instance load method fans out over. -/
def loadCollections : List String :=
  ["buffers", "bufferViews", "accessors", "images", "textures",
   "materials", "skins", "meshes", "nodes", "scenes", "animations"]

/-- The names of all collection fields assigned by the GLTF constructor
(src/lib/gltf.js lines 128-206): the thirteen arrays the root owns. -/
def gltfAllCollections : List String :=
  ["buffers", "bufferViews", "accessors", "images", "samplers", "textures",
   "materials", "skins", "cameras", "meshes", "nodes", "scenes", "animations"]

/-- View of a constructed GLTF root for load orchestration: for every owned
collection, the settled loadOnce outcome of each of its records, plus the
outcomes of the registered extension loads awaited first (line 258) and of
the super.load call awaited last (line 269). -/
structure GLTFLoadView (ε : Type) where
  extLoads : List (Except ε Unit)
  buffers : List (Except ε Unit)
  bufferViews : List (Except ε Unit)
  accessors : List (Except ε Unit)
  images : List (Except ε Unit)
  samplers : List (Except ε Unit)
  textures : List (Except ε Unit)
  materials : List (Except ε Unit)
  skins : List (Except ε Unit)
  cameras : List (Except ε Unit)
  meshes : List (Except ε Unit)
  nodes : List (Except ε Unit)
  scenes : List (Except ε Unit)
  animations : List (Except ε Unit)
  superLoad : Except ε Unit

/-- Looks up the loadOnce outcomes of the records of one named collection of
the root, mirroring the dynamic field access this[collection] on line 265 of
src/lib/gltf.js. -/
def GLTFLoadView.collectionOutcomes {ε : Type} (s : GLTFLoadView ε) : String → List (Except ε Unit)
  | "buffers" => s.buffers
  | "bufferViews" => s.bufferViews
  | "accessors" => s.accessors
  | "images" => s.images
  | "samplers" => s.samplers
  | "textures" => s.textures
  | "materials" => s.materials
  | "skins" => s.skins
  | "cameras" => s.cameras
  | "meshes" => s.meshes
  | "nodes" => s.nodes
  | "scenes" => s.scenes
  | "animations" => s.animations
  | _ => []

/-- Embeds the instance method GLTF.load of src/lib/gltf.js lines 257-271:
await Promise.all over the extension loads, then the nested Promise.all over
the collections named in loadCollections applying loadOnce to every record,
then await super.load. -/
def GLTF.loadRun {ε : Type} (s : GLTFLoadView ε) : Except ε Unit := do
  let _ ← promiseAll s.extLoads
  let _ ← promiseAll (loadCollections.map (fun c => promiseAll (s.collectionOutcomes c)))
  s.superLoad

/-- Embeds Mesh.load of src/lib/mesh.js lines 43-45: Promise.all over the
load outcomes of the primitives of the mesh (no super.load call). -/
def Mesh.loadRun {ε : Type} (primLoads : List (Except ε Unit)) : Except ε (List Unit) :=
  promiseAll primLoads

/-! ## The Values record (src/unnamed/part_000 lines 17-69) -/

/-- The wire-format fields of a sparse-accessor values object: the
bufferView index and the optional byteOffset (defaulting to 0). -/
structure ValuesJson where
  bufferView : Int
  byteOffset : Option Nat
  deriving DecidableEq, Repr

/-- A constructed Values record: the bufferView reference field (an integer
index until dereferencing rewrites it; BufferView records are abstracted as
Nat tokens) and the resolved byteOffset. -/
structure ValuesRec where
  bufferView : JsRef Nat
  byteOffset : Nat
  deriving DecidableEq, Repr

/-- Embeds the Values constructor (src/unnamed/part_000 lines 24-41): copies
the wire bufferView index unchanged and applies the byteOffset default. -/
def Values.construct (v : ValuesJson) : ValuesRec :=
  { bufferView := JsRef.idx v.bufferView, byteOffset := v.byteOffset.getD 0 }

/-- The dereferencing pass over a Values record: its referenceFields
(src/unnamed/part_000 lines 43-45) declare the single collection-type entry
bufferView over the bufferViews collection of the root, rewritten by the
single-index rule. -/
def ValuesRec.dereference (v : ValuesRec) (bufferViews : List Nat) :
    Except GltfError ValuesRec := do
  let bv ← dereferenceSingleIndex bufferViews v.bufferView
  pure { v with bufferView := bv }

/-! ## Predicates used to state the fan-out claims -/

/-- Every settled child outcome in the list is a fulfilled unit promise. -/
abbrev allOk {ε : Type} (l : List (Except ε Unit)) : Prop :=
  ∀ x ∈ l, x = Except.ok ()

/-- Every settled outcome in the list is fulfilled (with some value). -/
abbrev allOkSome {ε α : Type} (l : List (Except ε α)) : Prop :=
  ∀ x ∈ l, ∃ a, x = Except.ok a

/-- Exactly one child among the nested outcome lists failed, and it failed
with e: some collection splits as L1 ++ error e :: L2 with every outcome of
L1, L2 and of every earlier collection fulfilled (later outcomes are
unconstrained, matching the fail-fast first-error semantics). -/
def uniqueFailure {ε : Type} (LL : List (List (Except ε Unit))) (e : ε) : Prop :=
  ∃ A L1 L2 B, LL = A ++ (L1 ++ Except.error e :: L2) :: B ∧
    (∀ l ∈ A, allOk l) ∧ allOk L1 ∧ allOk L2

/-! ## GLTFExtensionsSet (src/lib/gltf.js lines 298-336) -/

/-- Factories registered for extension schemas are kept opaque: the registry
stores and returns them unchanged, so a Nat token stands for the class
object. -/
abbrev Factory : Type := Nat

/-- Writes value v under key k in an association list, overwriting an
existing binding for k and appending a new binding otherwise, mirroring JS
object property assignment. -/
def assocSet {β : Type} (l : List (String × β)) (k : String) (v : β) : List (String × β) :=
  match l with
  | [] => [(k, v)]
  | (k1, v1) :: rest => if k1 = k then (k, v) :: rest else (k1, v1) :: assocSet rest k v

/-- Reads the value bound to key k in an association list, mirroring JS
object property access (undefined encoded as none). -/
def assocGet {β : Type} (l : List (String × β)) (k : String) : Option β :=
  match l with
  | [] => none
  | (k1, v1) :: rest => if k1 = k then some v1 else assocGet rest k

/-- Embeds the private state of GLTFExtensionsSet: the supportedExtensions
set (as a list of names with set-semantics membership) and the schemas
record mapping an extendable property name to a record from extension name
to factory. -/
structure GLTFExtensionsSet where
  supportedExtensions : List String
  schemas : List (String × List (String × Factory))

/-- Embeds GLTFExtensionsSet.add (src/lib/gltf.js lines 310-318): inserts the
name into supportedExtensions, then for every (property, factory) entry of
the config schema ensures a record exists for that property and binds the
factory under the extension name, overwriting any earlier binding. -/
def GLTFExtensionsSet.add (s : GLTFExtensionsSet) (name : String)
    (schema : List (String × Factory)) : GLTFExtensionsSet :=
  { supportedExtensions :=
      if name ∈ s.supportedExtensions then s.supportedExtensions
      else s.supportedExtensions ++ [name],
    schemas :=
      schema.foldl
        (fun sc entry =>
          assocSet sc entry.1 (assocSet ((assocGet sc entry.1).getD []) name entry.2))
        s.schemas }

/-- Embeds GLTFExtensionsSet.getFactory (src/lib/gltf.js lines 324-326): the
optional-chained double lookup this.schemas[property]?.[name]. -/
def GLTFExtensionsSet.getFactory (s : GLTFExtensionsSet) (property name : String) :
    Option Factory :=
  (assocGet s.schemas property).bind (fun record => assocGet record name)

/-- Embeds GLTFExtensionsSet.isSupported (src/lib/gltf.js lines 331-333):
membership of the name in the supportedExtensions set. -/
def GLTFExtensionsSet.isSupported (s : GLTFExtensionsSet) (name : String) : Bool :=
  name ∈ s.supportedExtensions

/-! ## The binary (GLB) container reader
(static GLTF.load, src/lib/gltf.js lines 233-252) -/

/-- MAGIC_NUMBER_BINARY_FORMAT from src/lib/gltf.js line 45. -/
def MAGIC_NUMBER_BINARY_FORMAT : Nat := 0x46546C67

/-- The JSON chunk type constant of the container format (the source never
inspects it; it appears here only so that encoded containers can carry it). -/
def CHUNK_TYPE_JSON : Nat := 0x4E4F534A

/-- The BIN chunk type constant of the container format. -/
def CHUNK_TYPE_BIN : Nat := 0x004E4942

/-- Little-endian unsigned 32-bit read at a byte offset of a byte list, as a
Uint32Array element access performs it on the platforms the loader targets. -/
def readU32 (bs : List Nat) (off : Nat) : Nat :=
  match bs.drop off with
  | b0 :: b1 :: b2 :: b3 :: _ => b0 + 256 * b1 + 65536 * b2 + 16777216 * b3
  | _ => 0

/-- Little-endian 4-byte encoding of an unsigned 32-bit value. -/
def u32enc (n : Nat) : List Nat :=
  [n % 256, n / 256 % 256, n / 65536 % 256, n / 16777216 % 256]

/-- The byte region of length len starting at offset off of a byte list. -/
def byteSlice (bs : List Nat) (off len : Nat) : List Nat :=
  (bs.drop off).take len

/-- Result of the static GLTF.load body on an already-fetched byte buffer:
the binary branch yields the bytes decoded as the JSON document plus the
bytes copied into the array buffer of the first declared Buffer; a buffer
whose first word is not the magic constant is handed to response.json() and
parsed as a plain JSON body; rangeError is the JS RangeError thrown by a
typed-array or DataView construction whose window exceeds the buffer. -/
inductive StaticLoadResult where
  | binary (jsonBytes : List Nat) (copied : List Nat)
  | jsonFallback (body : List Nat)
  | rangeError
  deriving DecidableEq, Repr

/-- Embeds the byte-level behaviour of static GLTF.load (src/lib/gltf.js
lines 233-252) on a fetched buffer.  The four-word header view requires at
least 16 bytes; when word 0 equals the magic constant the JSON chunk length
is read from word 3 (byte offset 12) and the JSON text is the region of that
length at byte offset 20, requiring it to fit; the BIN payload copied into
the first declared Buffer is the region of that Buffer byteLength starting
at byte offset 28 + jsonLength, again requiring it to fit.  When word 0
differs from the magic constant the whole body is parsed as plain JSON.
JSON text decoding and document construction are abstracted to the byte
region; buffer0ByteLength stands for gltf.buffers[0].byteLength of the
constructed document. -/
def GLTF.staticLoadBytes (bs : List Nat) (buffer0ByteLength : Nat) : StaticLoadResult :=
  if bs.length < 16 then StaticLoadResult.rangeError
  else if readU32 bs 0 = MAGIC_NUMBER_BINARY_FORMAT then
    let jsonLength := readU32 bs 12
    if 20 + jsonLength > bs.length then StaticLoadResult.rangeError
    else if 28 + jsonLength + buffer0ByteLength > bs.length then StaticLoadResult.rangeError
    else StaticLoadResult.binary (byteSlice bs 20 jsonLength)
           (byteSlice bs (28 + jsonLength) buffer0ByteLength)
  else StaticLoadResult.jsonFallback bs

/-- Follows the spec words for the container layout (u32 magic, u32 version,
u32 totalLength, then length-prefixed chunks, JSON chunk first, BIN chunk
second): encodes a serialized JSON document and a byte payload, with the two
chunk type words taken as parameters since the reader never inspects them. -/
def encodeContainer (json payload : List Nat) (jsonType binType : Nat) : List Nat :=
  u32enc MAGIC_NUMBER_BINARY_FORMAT ++ u32enc 2 ++
  u32enc (28 + json.length + payload.length) ++
  u32enc json.length ++ u32enc jsonType ++ json ++
  u32enc payload.length ++ u32enc binType ++ payload

/-- The container layout exactly as the spec words it, with the JSON and BIN
chunk type constants in place. -/
def encodeContainerSpec (json payload : List Nat) : List Nat :=
  encodeContainer json payload CHUNK_TYPE_JSON CHUNK_TYPE_BIN

/-! ## Draco decompression worker protocol
(src/unnamed/part_000 lines 79-174, worker body of the WorkerHelper) -/

/-- Abstracted decoded geometry data returned by the opaque Draco decode:
attribute arrays by name plus the index array, both kept as opaque tokens. -/
structure DecodedData where
  attributes : List (String × Nat)
  indices : Nat
  deriving DecidableEq, Repr

/-- A message posted to a worker: the type tag and the task id; the byte
payload and requested attributes are abstracted since the decode itself is
an external capability. -/
structure WorkerRequest where
  type : String
  taskId : Nat
  deriving DecidableEq, Repr

/-- A message posted back by a worker: its correlating task id and either
the decoded attributes and indices (success), or an error (failure), or
neither (the readiness sentinel, which carries only taskId). -/
structure WorkerReply where
  taskId : Nat
  payload : Option (Except String DecodedData)
  deriving DecidableEq, Repr

/-- The readiness sentinel self.postMessage of src/unnamed/part_000 line 96,
posted once the lazily imported decoder module resolves. -/
def workerReadySentinel : WorkerReply := { taskId := 0, payload := none }

/-- Embeds the worker onmessage handler of src/unnamed/part_000 lines
99-172: a message whose type is decode produces exactly one reply carrying
the same task id, with the decoded attributes and indices when the decode
body succeeds and with the caught error when it throws; any other message
produces no reply.  The decode body itself (Draco calls) is an external
capability, abstracted as the decodeOutcome argument. -/
def workerOnMessage (msg : WorkerRequest) (decodeOutcome : Except String DecodedData) :
    List WorkerReply :=
  if msg.type = "decode" then
    match decodeOutcome with
    | Except.ok d => [{ taskId := msg.taskId, payload := some (Except.ok d) }]
    | Except.error e => [{ taskId := msg.taskId, payload := some (Except.error e) }]
  else []

/-- Events observable at the worker pool boundary: a worker signalling
readiness (its sentinel received) and a decode task being dispatched to a
worker. -/
inductive PoolEvent where
  | ready (worker : Nat)
  | dispatch (worker : Nat) (taskId : Nat)
  deriving DecidableEq, Repr

/-- Modelled from the spec: the WorkerHelper dispatch discipline
(utils/worker-helper.js is not among the sources).  init() awaits the
readiness sentinel of a worker before accepting tasks, so a trace of pool
events is accepted only when every dispatch goes to a worker that has
already signalled readiness; readyWorkers accumulates the workers whose
sentinel has been received. -/
def poolAccepts (readyWorkers : List Nat) : List PoolEvent → Bool
  | [] => true
  | PoolEvent.ready w :: es => poolAccepts (w :: readyWorkers) es
  | PoolEvent.dispatch w _ :: es => decide (w ∈ readyWorkers) && poolAccepts readyWorkers es

/-! ## Helper lemmas -/

/-- A reference field that is not an integer index is skipped by the
dereferencing pass over the GLTF record. -/
theorem GLTFRec.dereference_of_not_idx (scenes : List Nat) (r : JsRef Nat)
    (h : ∀ i, r ≠ JsRef.idx i) :
    GLTFRec.dereference ⟨scenes, r⟩ = Except.ok ⟨scenes, r⟩ := by
  cases r with
  | undef => rfl
  | obj a => rfl
  | idx i => exact absurd rfl (h i)

/-- The constructor scene assignment never leaves an integer in the field. -/
theorem jsIndexScenes_not_idx (scenes : List Nat) (o : Option Int) (i : Int) :
    jsIndexScenes scenes o ≠ JsRef.idx i := by
  cases o with
  | none => simp [jsIndexScenes]
  | some j =>
    simp only [jsIndexScenes]
    split
    · simp
    · simp

/-- A valid scene index materializes the element at that position. -/
theorem jsIndexScenes_valid (scenes : List Nat) (i : Int) (h1 : 0 ≤ i)
    (h2 : i.toNat < scenes.length) :
    jsIndexScenes scenes (some i) = JsRef.obj (scenes.get ⟨i.toNat, h2⟩) := by
  simp only [jsIndexScenes]
  rw [dif_pos ⟨h1, h2⟩]

/-- An absent or out-of-bounds scene index materializes undefined. -/
theorem jsIndexScenes_oob (scenes : List Nat) (i : Int)
    (h : ¬(0 ≤ i ∧ i.toNat < scenes.length)) :
    jsIndexScenes scenes (some i) = JsRef.undef := by
  simp only [jsIndexScenes]
  rw [dif_neg h]

/-- Unfolds ensureSupport once the version string to parse is known. -/
theorem ensureSupport_eq (v mv : Option String) (er reg : List String) (vs : String)
    (hv : jsOrElse mv v = some vs) :
    ensureSupport v mv er reg =
      if versionMajor vs ≠ some SUPPORTED_MAJOR ∨ (jsTruthy mv ∧ minorExceeds vs) then
        Except.error (GltfError.unsupportedVersion vs)
      else
        match er.find? (fun ext => ext ∉ reg) with
        | some ext => Except.error (GltfError.unsupportedExtension ext)
        | none => Except.ok () := by
  unfold ensureSupport
  rw [hv]
  rfl

/-- When the support gate passes, the GLTF constructor always completes and
produces the scenes collection together with the directly assigned scene
field. -/
theorem GLTF.construct_of_support (doc : GltfDoc) (reg : List String)
    (h : ensureSupport doc.version doc.minVersion doc.extensionsRequired reg = Except.ok ()) :
    GLTF.construct doc reg = Except.ok ⟨doc.scenes, jsIndexScenes doc.scenes doc.scene⟩ := by
  unfold GLTF.construct
  rw [h]
  exact GLTFRec.dereference_of_not_idx doc.scenes _ (jsIndexScenes_not_idx doc.scenes doc.scene)

/-- When the support gate throws, the GLTF constructor propagates that
error. -/
theorem GLTF.construct_of_support_error (doc : GltfDoc) (reg : List String) (e : GltfError)
    (h : ensureSupport doc.version doc.minVersion doc.extensionsRequired reg = Except.error e) :
    GLTF.construct doc reg = Except.error e := by
  unfold GLTF.construct
  rw [h]
  rfl

/-! ## Claim C3: the version gate -/

/-- Claim C3: constructing from a document with asset.version 1.0 throws
Unsupported glTF version, constructing from one with asset.version 2.0
succeeds, and in general construction fails with the version error exactly
when the major component parsed from minVersion-or-version differs from 2
or a given minVersion has minor component greater than 0; the error arises
in the synchronous constructor itself, before any load activity. -/
theorem claim_C3_version_gate (doc : GltfDoc) (reg : List String) (vs : String)
    (hv : jsOrElse doc.minVersion doc.version = some vs) :
    ((versionMajor vs ≠ some SUPPORTED_MAJOR ∨ (jsTruthy doc.minVersion ∧ minorExceeds vs)) →
      GLTF.construct doc reg = Except.error (GltfError.unsupportedVersion vs))
    ∧ ((versionMajor vs = some SUPPORTED_MAJOR ∧ (jsTruthy doc.minVersion → minorExceeds vs = false)) →
      ∀ w, GLTF.construct doc reg ≠ Except.error (GltfError.unsupportedVersion w))
    ∧ GLTF.construct ⟨some "1.0", none, [], [], none⟩ [] =
        Except.error (GltfError.unsupportedVersion "1.0")
    ∧ GLTF.construct ⟨some "2.0", none, [], [], none⟩ [] =
        Except.ok ⟨[], JsRef.undef⟩ := by
  refine ⟨?_, ?_, by decide, by decide⟩
  · intro hbad
    apply GLTF.construct_of_support_error
    rw [ensureSupport_eq doc.version doc.minVersion doc.extensionsRequired reg vs hv]
    rw [if_pos hbad]
  · intro hgood w
    have hnc : ¬(versionMajor vs ≠ some SUPPORTED_MAJOR ∨ (jsTruthy doc.minVersion ∧ minorExceeds vs)) := by
      rintro (h1 | ⟨h2, h3⟩)
      · exact h1 hgood.1
      · rw [hgood.2 h2] at h3
        exact Bool.false_ne_true h3
    cases hfind : doc.extensionsRequired.find? (fun ext => ext ∉ reg) with
    | some ext =>
      have hsup : ensureSupport doc.version doc.minVersion doc.extensionsRequired reg =
          Except.error (GltfError.unsupportedExtension ext) := by
        rw [ensureSupport_eq doc.version doc.minVersion doc.extensionsRequired reg vs hv]
        rw [if_neg hnc]
        rw [hfind]
      rw [GLTF.construct_of_support_error doc reg _ hsup]
      intro hcontra
      exact GltfError.noConfusion (Except.error.inj hcontra)
    | none =>
      have hsup : ensureSupport doc.version doc.minVersion doc.extensionsRequired reg =
          Except.ok () := by
        rw [ensureSupport_eq doc.version doc.minVersion doc.extensionsRequired reg vs hv]
        rw [if_neg hnc]
        rw [hfind]
      rw [GLTF.construct_of_support doc reg hsup]
      intro hcontra
      exact Except.noConfusion hcontra

/-- Witness for claim C3: a document carrying minVersion 2.1 is rejected
and one carrying version 2.0 with no minVersion passes the gate. -/
theorem claim_C3_version_gate_witness :
    GLTF.construct ⟨some "2.0", some "2.1", [], [], none⟩ [] =
      Except.error (GltfError.unsupportedVersion "2.1")
    ∧ GLTF.construct ⟨some "2.0", none, [], [], none⟩ [] ≠
      Except.error (GltfError.unsupportedVersion "2.0") := by
  constructor
  · exact (claim_C3_version_gate ⟨some "2.0", some "2.1", [], [], none⟩ [] "2.1" (by decide)).1
      (by decide)
  · exact (claim_C3_version_gate ⟨some "2.0", none, [], [], none⟩ [] "2.0" (by decide)).2.1
      (by decide) "2.0"

/-! ## Claim C4: the required-extension gate -/

/-- Claim C4: with the version gate passing, construction throws Unsupported
glTF extension at a name of extensionsRequired that is not registered, and
succeeds when every required name is registered; the error arises in the
synchronous constructor itself. -/
theorem claim_C4_extension_gate (doc : GltfDoc) (reg : List String) (vs : String)
    (hv : jsOrElse doc.minVersion doc.version = some vs)
    (hmaj : versionMajor vs = some SUPPORTED_MAJOR)
    (hmin : jsTruthy doc.minVersion → minorExceeds vs = false) :
    ((∃ e, e ∈ doc.extensionsRequired ∧ e ∉ reg) →
      ∃ name, name ∈ doc.extensionsRequired ∧ name ∉ reg ∧
        GLTF.construct doc reg = Except.error (GltfError.unsupportedExtension name))
    ∧ ((∀ e, e ∈ doc.extensionsRequired → e ∈ reg) →
      GLTF.construct doc reg = Except.ok ⟨doc.scenes, jsIndexScenes doc.scenes doc.scene⟩) := by
  have hnc : ¬(versionMajor vs ≠ some SUPPORTED_MAJOR ∨ (jsTruthy doc.minVersion ∧ minorExceeds vs)) := by
    rintro (h1 | ⟨h2, h3⟩)
    · exact h1 hmaj
    · rw [hmin h2] at h3
      exact Bool.false_ne_true h3
  constructor
  · rintro ⟨e, he, hreg⟩
    cases hfind : doc.extensionsRequired.find? (fun ext => ext ∉ reg) with
    | none =>
      exfalso
      have := List.find?_eq_none.mp hfind e he
      simp at this
      exact hreg this
    | some ext =>
      refine ⟨ext, List.mem_of_find?_eq_some hfind, ?_, ?_⟩
      · have := List.find?_some hfind
        simp only [decide_not, Bool.not_eq_true', decide_eq_false_iff_not] at this
        exact this
      · apply GLTF.construct_of_support_error
        rw [ensureSupport_eq doc.version doc.minVersion doc.extensionsRequired reg vs hv]
        rw [if_neg hnc]
        rw [hfind]
  · intro hall
    apply GLTF.construct_of_support
    rw [ensureSupport_eq doc.version doc.minVersion doc.extensionsRequired reg vs hv]
    rw [if_neg hnc]
    have hfind : doc.extensionsRequired.find? (fun ext => ext ∉ reg) = none := by
      rw [List.find?_eq_none]
      intro e he
      simp
      exact hall e he
    rw [hfind]

/-- Witness for claim C4: a document requiring the unregistered extension
X_unregistered is rejected with the extension error, and the same document
passes once the name is registered. -/
theorem claim_C4_extension_gate_witness :
    (∃ name, name ∈ ["X_unregistered"] ∧ name ∉ ([] : List String) ∧
      GLTF.construct ⟨some "2.0", none, ["X_unregistered"], [], none⟩ [] =
        Except.error (GltfError.unsupportedExtension name))
    ∧ GLTF.construct ⟨some "2.0", none, ["X_unregistered"], [], none⟩ ["X_unregistered"] =
        Except.ok ⟨[], JsRef.undef⟩ := by
  constructor
  · exact (claim_C4_extension_gate ⟨some "2.0", none, ["X_unregistered"], [], none⟩ [] "2.0"
      (by decide) (by decide) (fun h => by decide)).1 ⟨"X_unregistered", by decide, by decide⟩
  · exact (claim_C4_extension_gate ⟨some "2.0", none, ["X_unregistered"], [], none⟩
      ["X_unregistered"] "2.0" (by decide) (by decide) (fun h => by decide)).2
      (by decide)

/-! ## Claim C10: an out-of-bounds default-scene index is silent -/

/-- Claim C10: when the top-level scene index is at or past the end of the
scenes array (in particular when scenes is empty), the constructor completes
without any error and leaves the scene field undefined, because the field is
assigned directly from this.scenes[scene] before the dereferencing pass runs
and the pass skips the non-integer value. -/
theorem claim_C10_scene_out_of_bounds (doc : GltfDoc) (reg : List String) (i : Int)
    (hsup : ensureSupport doc.version doc.minVersion doc.extensionsRequired reg = Except.ok ())
    (hscene : doc.scene = some i)
    (hoob : (doc.scenes.length : Int) ≤ i) :
    GLTF.construct doc reg = Except.ok ⟨doc.scenes, JsRef.undef⟩ := by
  have hnot : ¬(0 ≤ i ∧ i.toNat < doc.scenes.length) := by
    rintro ⟨h1, h2⟩
    omega
  rw [GLTF.construct_of_support doc reg hsup, hscene,
    jsIndexScenes_oob doc.scenes i hnot]

/-- Witness for claim C10: a document with an empty scenes array and scene
index 0 constructs successfully with an undefined scene field. -/
theorem claim_C10_scene_out_of_bounds_witness :
    GLTF.construct ⟨some "2.0", none, [], [], some 0⟩ [] =
      Except.ok ⟨[], JsRef.undef⟩ := by
  exact claim_C10_scene_out_of_bounds ⟨some "2.0", none, [], [], some 0⟩ [] 0
    (by decide) rfl (by decide)

/-! ## Claim C1: single-index dereferencing -/

/-- Counterexample to claim C1 as stated: the scene reference field of the
GLTF root carries wire index 0 into a scenes collection of size 0, yet the
construction-time dereferencing pass completes without ReferenceError (the
constructor resolved the field to undefined before the pass ran). -/
theorem claim_C1_counterexample :
    GLTF.construct ⟨some "2.0", none, [], [], some 0⟩ [] = Except.ok ⟨[], JsRef.undef⟩
    ∧ GLTF.construct ⟨some "2.0", none, [], [], some 0⟩ [] ≠
        Except.error GltfError.referenceError := by
  constructor
  · decide
  · decide

/-- Claim C1 (amended): for a collection-type reference field whose value is
still an integer when the dereferencing pass runs (such as
Values.bufferView over bufferViews), a valid wire index i yields the i-th
element of the collection and an out-of-bounds or negative index fails with
ReferenceError; the scene field of the GLTF root is instead materialized as
this.scenes[scene] during construction, so a valid index yields the i-th
scene but an out-of-bounds index silently yields undefined rather than a
ReferenceError. -/
theorem claim_C1_single_index_dereference
    (bufferViews : List Nat) (vj : ValuesJson) (doc : GltfDoc) (reg : List String) (j : Int) :
    (∀ (h1 : 0 ≤ vj.bufferView) (h2 : vj.bufferView.toNat < bufferViews.length),
      (Values.construct vj).dereference bufferViews =
        Except.ok ⟨JsRef.obj (bufferViews.get ⟨vj.bufferView.toNat, h2⟩), vj.byteOffset.getD 0⟩)
    ∧ (¬(0 ≤ vj.bufferView ∧ vj.bufferView.toNat < bufferViews.length) →
      (Values.construct vj).dereference bufferViews = Except.error GltfError.referenceError)
    ∧ (∀ (hsup : ensureSupport doc.version doc.minVersion doc.extensionsRequired reg = Except.ok ())
        (hscene : doc.scene = some j) (h1 : 0 ≤ j) (h2 : j.toNat < doc.scenes.length),
      GLTF.construct doc reg = Except.ok ⟨doc.scenes, JsRef.obj (doc.scenes.get ⟨j.toNat, h2⟩)⟩)
    ∧ (∀ (hsup : ensureSupport doc.version doc.minVersion doc.extensionsRequired reg = Except.ok ())
        (hscene : doc.scene = some j),
      (doc.scenes.length : Int) ≤ j →
      GLTF.construct doc reg = Except.ok ⟨doc.scenes, JsRef.undef⟩) := by
  refine ⟨?_, ?_, ?_, ?_⟩
  · intro h1 h2
    unfold ValuesRec.dereference Values.construct
    simp only [dereferenceSingleIndex]
    rw [dif_pos ⟨h1, h2⟩]
    rfl
  · intro h
    unfold ValuesRec.dereference Values.construct
    simp only [dereferenceSingleIndex]
    rw [dif_neg h]
    rfl
  · intro hsup hscene h1 h2
    rw [GLTF.construct_of_support doc reg hsup, hscene,
      jsIndexScenes_valid doc.scenes j h1 h2]
  · intro hsup hscene hoob
    have hnot : ¬(0 ≤ j ∧ j.toNat < doc.scenes.length) := by
      rintro ⟨ha, hb⟩
      omega
    rw [GLTF.construct_of_support doc reg hsup, hscene,
      jsIndexScenes_oob doc.scenes j hnot]

/-- Witness for claim C1 (amended): a valid Values.bufferView index resolves
to the element, a negative index raises ReferenceError, and a valid scene
index resolves to the scene element. -/
theorem claim_C1_single_index_dereference_witness :
    (Values.construct ⟨1, some 4⟩).dereference [5, 6, 7] = Except.ok ⟨JsRef.obj 6, 4⟩
    ∧ (Values.construct ⟨-1, none⟩).dereference [5, 6, 7] =
        Except.error GltfError.referenceError
    ∧ GLTF.construct ⟨some "2.0", none, [], [10, 20], some 1⟩ [] =
        Except.ok ⟨[10, 20], JsRef.obj 20⟩ := by
  refine ⟨?_, ?_, ?_⟩
  · exact (claim_C1_single_index_dereference [5, 6, 7] ⟨1, some 4⟩
      ⟨some "2.0", none, [], [10, 20], some 1⟩ [] 1).1 (by decide) (by decide)
  · exact (claim_C1_single_index_dereference [5, 6, 7] ⟨-1, none⟩
      ⟨some "2.0", none, [], [10, 20], some 1⟩ [] 1).2.1 (by decide)
  · exact (claim_C1_single_index_dereference [5, 6, 7] ⟨1, some 4⟩
      ⟨some "2.0", none, [], [10, 20], some 1⟩ [] 1).2.2.1 (by decide) rfl (by decide) (by decide)

/-! ## Claim C2: at-most-once load memoization -/

/-- Once the memo holds an outcome, further loadOnce calls return it
unchanged without touching the fetch counter. -/
theorem loadOnceN_memoized {ε α : Type} (run : Except ε α) (c : Nat) (n : Nat) :
    loadOnceN run ⟨some run, c⟩ n = (⟨some run, c⟩, List.replicate n run) := by
  induction n with
  | zero => rfl
  | succ m ih => simp [loadOnceN, loadOnce, ih, List.replicate]

/-- Claim C2: invoking loadOnce N times (N at least 1) on a fresh record
triggers the underlying fetch/decode side effect exactly once, and all N
callers observe the same outcome, namely that of the single underlying
load. -/
theorem claim_C2_load_once {ε α : Type} (run : Except ε α) (n : Nat) (h : 1 ≤ n) :
    (loadOnceN run LoadState.fresh n).1.fetchCount = 1
    ∧ (loadOnceN run LoadState.fresh n).2 = List.replicate n run := by
  obtain ⟨m, rfl⟩ : ∃ m, n = m + 1 := ⟨n - 1, by omega⟩
  simp [loadOnceN, loadOnce, LoadState.fresh, loadOnceN_memoized, List.replicate]

/-- Witness for claim C2 at three invocations of a load that fulfils
with 5. -/
theorem claim_C2_load_once_witness :
    1 ≤ 3
    ∧ (loadOnceN (Except.ok 5 : Except Nat Nat) LoadState.fresh 3).1.fetchCount = 1
    ∧ (loadOnceN (Except.ok 5 : Except Nat Nat) LoadState.fresh 3).2 =
        List.replicate 3 (Except.ok 5) :=
  ⟨by decide, claim_C2_load_once (Except.ok 5) 3 (by decide)⟩

/-! ## Claim C8: last registration wins in the extension registry -/

/-- Writing then reading the same key of an association list yields the
written value. -/
theorem assocGet_assocSet {β : Type} (l : List (String × β)) (k : String) (v : β) :
    assocGet (assocSet l k v) k = some v := by
  induction l with
  | nil => simp [assocSet, assocGet]
  | cons p rest ih =>
    obtain ⟨k1, v1⟩ := p
    by_cases hk : k1 = k
    · simp [assocSet, assocGet, hk]
    · simp [assocSet, assocGet, hk, ih]

/-- The name passed to add is in the supportedExtensions set afterwards. -/
theorem mem_supported_add (s : GLTFExtensionsSet) (n : String) (schema : List (String × Factory)) :
    n ∈ (s.add n schema).supportedExtensions := by
  by_cases h : n ∈ s.supportedExtensions <;> simp [GLTFExtensionsSet.add, h]

/-- Claim C8: for any registry state, record kind and extension name,
registering factory F1 and then factory F2 under the same (kind, name) pair
silently overwrites: getFactory returns F2 and isSupported returns true. -/
theorem claim_C8_registry_last_wins (s : GLTFExtensionsSet) (k n : String) (F1 F2 : Factory) :
    ((s.add n [(k, F1)]).add n [(k, F2)]).getFactory k n = some F2
    ∧ ((s.add n [(k, F1)]).add n [(k, F2)]).isSupported n = true := by
  constructor
  · show ((s.add n [(k, F1)]).add n [(k, F2)]).getFactory k n = some F2
    simp only [GLTFExtensionsSet.getFactory, GLTFExtensionsSet.add, List.foldl]
    rw [assocGet_assocSet]
    exact assocGet_assocSet _ _ _
  · have hmem := mem_supported_add (s.add n [(k, F1)]) n [(k, F2)]
    unfold GLTFExtensionsSet.isSupported
    exact decide_eq_true hmem

/-! ## Claim C5: load fan-out over the graph -/

/-- Promise.all over fulfilled children fulfils. -/
theorem promiseAll_ok_of_allOkSome {ε α : Type} (l : List (Except ε α)) (h : allOkSome l) :
    ∃ as, promiseAll l = Except.ok as := by
  induction l with
  | nil => exact ⟨[], rfl⟩
  | cons x xs ih =>
    obtain ⟨a, rfl⟩ := h x (List.mem_cons_self x xs)
    obtain ⟨as, has⟩ := ih (fun y hy => h y (List.mem_cons_of_mem _ hy))
    exact ⟨a :: as, by simp [promiseAll, has]⟩

/-- Promise.all rejects with the error of the first rejected child when
every earlier child fulfilled. -/
theorem promiseAll_first_error {ε α : Type} (L1 L2 : List (Except ε α)) (e : ε)
    (h : allOkSome L1) :
    promiseAll (L1 ++ Except.error e :: L2) = Except.error e := by
  induction L1 with
  | nil => rfl
  | cons x xs ih =>
    obtain ⟨a, rfl⟩ := h x (List.mem_cons_self x xs)
    have htail := ih (fun y hy => h y (List.mem_cons_of_mem _ hy))
    simp [promiseAll, htail]

/-- Promise.all over fulfilled unit children fulfils with the unit list. -/
theorem promiseAll_allOk {ε : Type} (l : List (Except ε Unit)) (h : allOk l) :
    promiseAll l = Except.ok (List.replicate l.length ()) := by
  induction l with
  | nil => rfl
  | cons x xs ih =>
    have hx : x = Except.ok () := h x (List.mem_cons_self x xs)
    subst hx
    have htail := ih (fun y hy => h y (List.mem_cons_of_mem _ hy))
    simp [promiseAll, htail, List.replicate]

/-- A fulfilled Promise.all means every child fulfilled. -/
theorem allOkSome_of_promiseAll_ok {ε α : Type} (l : List (Except ε α)) (as : List α)
    (h : promiseAll l = Except.ok as) : allOkSome l := by
  induction l generalizing as with
  | nil => intro y hy; cases hy
  | cons x xs ih =>
    intro y hy
    cases x with
    | error e => simp [promiseAll] at h
    | ok a =>
      cases hpa : promiseAll xs with
      | error e => simp [promiseAll, hpa] at h
      | ok as2 =>
        rcases List.mem_cons.mp hy with hyx | hyxs
        · exact ⟨a, hyx⟩
        · exact ih as2 hpa y hyxs

/-- The nested Promise.all over the mapped collections rejects with the
error of the unique failing child. -/
theorem nested_unique_failure {ε : Type} (LL : List (List (Except ε Unit))) (e : ε)
    (h : uniqueFailure LL e) :
    promiseAll (LL.map promiseAll) = Except.error e := by
  obtain ⟨A, L1, L2, B, rfl, hA, h1, h2⟩ := h
  rw [List.map_append, List.map_cons]
  have hmid : promiseAll (L1 ++ Except.error e :: L2) = Except.error e :=
    promiseAll_first_error L1 L2 e (fun y hy => ⟨(), h1 y hy⟩)
  rw [hmid]
  apply promiseAll_first_error
  intro x hx
  obtain ⟨l, hl, rfl⟩ := List.mem_map.mp hx
  exact ⟨List.replicate l.length (), promiseAll_allOk l (hA l hl)⟩

/-- The nested Promise.all of the load fan-out, phrased on the per-name
outcome function, rejects with the unique failing child error. -/
theorem nested_unique_failure_map {ε : Type} (cols : List String)
    (f : String → List (Except ε Unit)) (e : ε)
    (h : uniqueFailure (cols.map f) e) :
    promiseAll (cols.map (fun c => promiseAll (f c))) = Except.error e := by
  have hfuse : cols.map (fun c => promiseAll (f c)) = (cols.map f).map promiseAll := by
    rw [List.map_map]
    rfl
  rw [hfuse]
  exact nested_unique_failure _ e h

/-- Counterexample to claim C5 as stated: a GLTF root whose cameras
collection holds a record with a failing load nevertheless loads
successfully, because the instance load method fans out only over eleven of
the thirteen owned collections: cameras and samplers are omitted. -/
theorem claim_C5_counterexample :
    GLTF.loadRun (ε := Nat)
      ⟨[], [], [], [], [], [], [], [], [], [Except.error 7], [], [], [], [], Except.ok ()⟩ =
      Except.ok ()
    ∧ (⟨[], [], [], [], [], [], [], [], [], [Except.error 7], [], [], [], [],
        Except.ok ()⟩ : GLTFLoadView Nat).cameras = [Except.error 7]
    ∧ "cameras" ∈ gltfAllCollections
    ∧ "cameras" ∉ loadCollections := by
  refine ⟨rfl, rfl, by decide, by decide⟩

/-- Claim C5 (amended): the GLTF root load fans out over the records of the
eleven collections named in its collections array (cameras and samplers,
though owned by the root, are not covered) and a Mesh load fans out over
its primitives; the parent fulfils only when every covered child fulfilled
(given the extension loads and the base-class hook fulfil), and a unique
failing child fails the parent with the error of that child. -/
theorem claim_C5_load_fanout {ε : Type} (s : GLTFLoadView ε) (e : ε)
    (prims L1 L2 : List (Except ε Unit)) :
    (allOk s.extLoads → (∀ c ∈ loadCollections, allOk (s.collectionOutcomes c)) →
      s.superLoad = Except.ok () → GLTF.loadRun s = Except.ok ())
    ∧ (allOk s.extLoads →
      uniqueFailure (loadCollections.map (fun c => s.collectionOutcomes c)) e →
      GLTF.loadRun s = Except.error e)
    ∧ (GLTF.loadRun s = Except.ok () → ∀ c ∈ loadCollections, allOk (s.collectionOutcomes c))
    ∧ (allOk prims → Mesh.loadRun prims = Except.ok (List.replicate prims.length ()))
    ∧ (allOk L1 → Mesh.loadRun (L1 ++ Except.error e :: L2) = Except.error e) := by
  refine ⟨?_, ?_, ?_, ?_, ?_⟩
  · intro hext hcols hsuper
    have hext2 := promiseAll_allOk s.extLoads hext
    obtain ⟨as, hnested⟩ :=
      promiseAll_ok_of_allOkSome (loadCollections.map (fun c => promiseAll (s.collectionOutcomes c)))
        (by
          intro x hx
          obtain ⟨c, hc, rfl⟩ := List.mem_map.mp hx
          exact ⟨_, promiseAll_allOk _ (hcols c hc)⟩)
    simp only [GLTF.loadRun, bind, Except.bind, hext2, hnested]
    exact hsuper
  · intro hext hfail
    have hext2 := promiseAll_allOk s.extLoads hext
    have hnested := nested_unique_failure_map loadCollections
      (fun c => s.collectionOutcomes c) e hfail
    simp only [GLTF.loadRun, bind, Except.bind, hext2, hnested]
  · intro hok c hc
    cases hext : promiseAll s.extLoads with
    | error e2 =>
      simp only [GLTF.loadRun, bind, Except.bind, hext] at hok
      cases hok
    | ok as1 =>
      cases hnested : promiseAll (loadCollections.map (fun c => promiseAll (s.collectionOutcomes c))) with
      | error e2 =>
        simp only [GLTF.loadRun, bind, Except.bind, hext, hnested] at hok
        cases hok
      | ok as2 =>
        have hmem : promiseAll (s.collectionOutcomes c) ∈
            loadCollections.map (fun c => promiseAll (s.collectionOutcomes c)) :=
          List.mem_map.mpr ⟨c, hc, rfl⟩
        obtain ⟨vs, hvs⟩ := allOkSome_of_promiseAll_ok _ as2 hnested _ hmem
        intro y hy
        obtain ⟨a, ha⟩ := allOkSome_of_promiseAll_ok _ vs hvs y hy
        cases a
        exact ha
  · intro hprims
    exact promiseAll_allOk prims hprims
  · intro h1
    exact promiseAll_first_error L1 L2 e (fun y hy => ⟨(), h1 y hy⟩)

/-- Witness for claim C5 (amended): a root whose covered collections all
fulfil loads successfully, one with a unique failing buffer fails with that
error, and a mesh with a failing primitive fails with its error. -/
theorem claim_C5_load_fanout_witness :
    GLTF.loadRun (ε := Nat)
      ⟨[], [Except.ok ()], [], [], [], [], [], [], [], [], [], [], [], [], Except.ok ()⟩ =
      Except.ok ()
    ∧ GLTF.loadRun (ε := Nat)
      ⟨[], [Except.ok (), Except.error 7], [], [], [], [], [], [], [], [], [], [], [], [],
        Except.ok ()⟩ = Except.error 7
    ∧ Mesh.loadRun ([Except.ok ()] ++ Except.error 7 :: [Except.ok ()]) = Except.error 7 := by
  refine ⟨?_, ?_, ?_⟩
  · exact (claim_C5_load_fanout (ε := Nat)
      ⟨[], [Except.ok ()], [], [], [], [], [], [], [], [], [], [], [], [], Except.ok ()⟩
      7 [] [] []).1 (by intro x hx; cases hx) (by decide) rfl
  · exact (claim_C5_load_fanout (ε := Nat)
      ⟨[], [Except.ok (), Except.error 7], [], [], [], [], [], [], [], [], [], [], [], [],
        Except.ok ()⟩ 7 [] [] []).2.1 (by intro x hx; cases hx)
      ⟨[], [Except.ok ()], [], [[], [], [], [], [], [], [], [], [], []],
        by decide, by decide, by decide, by decide⟩
  · exact (claim_C5_load_fanout (ε := Nat)
      ⟨[], [], [], [], [], [], [], [], [], [], [], [], [], [], Except.ok ()⟩
      7 [] [Except.ok ()] [Except.ok ()]).2.2.2.2 (by decide)

/-! ## Claims C6 and C7: the binary container -/

/-- Dropping the length of a prefix uncovers the suffix. -/
theorem dropAppend {α : Type} (P l : List α) : (P ++ l).drop P.length = l := by
  induction P with
  | nil => rfl
  | cons a P ih => simpa using ih

/-- Taking the length of a prefix recovers the prefix. -/
theorem takeAppend {α : Type} (P l : List α) : (P ++ l).take P.length = P := by
  induction P with
  | nil => rfl
  | cons a P ih => simpa using ih

/-- Slicing at the boundary of a known prefix length is a take of the
suffix. -/
theorem byteSlice_append (P l : List Nat) (n len : Nat) (h : n = P.length) :
    byteSlice (P ++ l) n len = l.take len := by
  subst h
  unfold byteSlice
  rw [dropAppend]

/-- The total byte length of an encoded container. -/
theorem encodeContainer_length (J B : List Nat) (jt bt : Nat) :
    (encodeContainer J B jt bt).length = 28 + J.length + B.length := by
  simp [encodeContainer, u32enc]
  omega

/-- Parsing an encoded container through the byte-level static load yields
the original JSON bytes and the original payload, for any chunk type words
(the reader never inspects them). -/
theorem staticLoadBytes_encodeContainer (J B : List Nat) (jt bt : Nat)
    (hJ : J.length < 4294967296) :
    GLTF.staticLoadBytes (encodeContainer J B jt bt) B.length =
      StaticLoadResult.binary J B := by
  have hlen := encodeContainer_length J B jt bt
  have hmagic : readU32 (encodeContainer J B jt bt) 0 = MAGIC_NUMBER_BINARY_FORMAT := rfl
  have hjson : readU32 (encodeContainer J B jt bt) 12 = J.length := by
    show J.length % 256 + 256 * (J.length / 256 % 256) + 65536 * (J.length / 65536 % 256) +
      16777216 * (J.length / 16777216 % 256) = J.length
    omega
  have hjslice : byteSlice (encodeContainer J B jt bt) 20 J.length = J := by
    show List.take J.length (J ++ u32enc B.length ++ u32enc bt ++ B) = J
    rw [List.append_assoc, List.append_assoc]
    exact takeAppend J _
  have hsplit : encodeContainer J B jt bt =
      (u32enc MAGIC_NUMBER_BINARY_FORMAT ++ u32enc 2 ++ u32enc (28 + J.length + B.length) ++
        u32enc J.length ++ u32enc jt ++ J ++ u32enc B.length ++ u32enc bt) ++ B := by
    simp [encodeContainer, List.append_assoc]
  have hplen : (u32enc MAGIC_NUMBER_BINARY_FORMAT ++ u32enc 2 ++
      u32enc (28 + J.length + B.length) ++ u32enc J.length ++ u32enc jt ++ J ++
      u32enc B.length ++ u32enc bt).length = 28 + J.length := by
    simp [u32enc]
    omega
  have hbslice : byteSlice (encodeContainer J B jt bt) (28 + J.length) B.length = B := by
    rw [hsplit, byteSlice_append _ _ _ _ hplen.symm, List.take_length]
  simp only [GLTF.staticLoadBytes]
  rw [hlen, hmagic, hjson]
  rw [if_neg (by omega), if_pos rfl, if_neg (by omega), if_neg (by omega), hjslice, hbslice]

/-- Claim C6: encoding a JSON document and a byte payload into the binary
container layout and loading the bytes through the static load reproduces
the JSON document bytes (parsed from offset 20 of the declared JSON chunk
length) and copies the payload byte-for-byte into the region of the first
declared Buffer (whose byteLength equals the payload length). -/
theorem claim_C6_container_round_trip (J B : List Nat) (hJ : J.length < 4294967296) :
    GLTF.staticLoadBytes (encodeContainerSpec J B) B.length =
      StaticLoadResult.binary J B := by
  unfold encodeContainerSpec
  exact staticLoadBytes_encodeContainer J B CHUNK_TYPE_JSON CHUNK_TYPE_BIN hJ

/-- Witness for claim C6 on a three-byte document and a three-byte
payload. -/
theorem claim_C6_container_round_trip_witness :
    GLTF.staticLoadBytes (encodeContainerSpec [123, 34, 97] [1, 2, 3]) 3 =
      StaticLoadResult.binary [123, 34, 97] [1, 2, 3] :=
  claim_C6_container_round_trip [123, 34, 97] [1, 2, 3] (by decide)

/-- Counterexample to claim C7 as stated: a sixteen-byte container whose
first word is not the magic constant is not rejected with any FormatError;
the loader hands the whole body to the plain-JSON path (the embedded result
type has no FormatError outcome at all, mirroring the source, which defines
none). -/
theorem claim_C7_counterexample :
    GLTF.staticLoadBytes ([0, 0, 0, 0] ++ u32enc 2 ++ u32enc 16 ++ u32enc 0) 0 =
      StaticLoadResult.jsonFallback ([0, 0, 0, 0] ++ u32enc 2 ++ u32enc 16 ++ u32enc 0)
    ∧ readU32 ([0, 0, 0, 0] ++ u32enc 2 ++ u32enc 16 ++ u32enc 0) 0 ≠
        MAGIC_NUMBER_BINARY_FORMAT := by
  constructor
  · decide
  · decide

/-- Claim C7 (amended): a buffer whose first word differs from the magic
constant is treated as a plain JSON body rather than rejected; a buffer
shorter than the sixteen-byte header view, or one whose declared JSON chunk
length overruns the container, raises a JS RangeError from the typed-array
construction (not a FormatError); and the chunk type words are never
inspected, so a container whose first chunk is not typed JSON parses
exactly as if it were (a missing JSON chunk is not detected). -/
theorem claim_C7_container_errors (bs : List Nat) (blen : Nat) (J B : List Nat) (jt bt : Nat) :
    (16 ≤ bs.length → readU32 bs 0 ≠ MAGIC_NUMBER_BINARY_FORMAT →
      GLTF.staticLoadBytes bs blen = StaticLoadResult.jsonFallback bs)
    ∧ (bs.length < 16 → GLTF.staticLoadBytes bs blen = StaticLoadResult.rangeError)
    ∧ (16 ≤ bs.length → readU32 bs 0 = MAGIC_NUMBER_BINARY_FORMAT →
      bs.length < 20 + readU32 bs 12 →
      GLTF.staticLoadBytes bs blen = StaticLoadResult.rangeError)
    ∧ (J.length < 4294967296 →
      GLTF.staticLoadBytes (encodeContainer J B jt bt) B.length =
        StaticLoadResult.binary J B) := by
  refine ⟨?_, ?_, ?_, ?_⟩
  · intro h1 h2
    simp only [GLTF.staticLoadBytes]
    rw [if_neg (by omega), if_neg h2]
  · intro h1
    simp only [GLTF.staticLoadBytes]
    rw [if_pos h1]
  · intro h1 h2 h3
    simp only [GLTF.staticLoadBytes]
    rw [if_neg (by omega), if_pos h2, if_pos (by omega)]
  · intro hJ
    exact staticLoadBytes_encodeContainer J B jt bt hJ

/-- Witness for claim C7 (amended) on concrete sixteen-byte containers. -/
theorem claim_C7_container_errors_witness :
    GLTF.staticLoadBytes (u32enc 99 ++ u32enc 2 ++ u32enc 16 ++ u32enc 0) 0 =
      StaticLoadResult.jsonFallback (u32enc 99 ++ u32enc 2 ++ u32enc 16 ++ u32enc 0)
    ∧ GLTF.staticLoadBytes [1, 2, 3] 0 = StaticLoadResult.rangeError
    ∧ GLTF.staticLoadBytes
        (u32enc MAGIC_NUMBER_BINARY_FORMAT ++ u32enc 2 ++ u32enc 16 ++ u32enc 999) 0 =
      StaticLoadResult.rangeError
    ∧ GLTF.staticLoadBytes (encodeContainer [5] [9] 0 0) 1 =
      StaticLoadResult.binary [5] [9] := by
  refine ⟨?_, ?_, ?_, ?_⟩
  · exact (claim_C7_container_errors (u32enc 99 ++ u32enc 2 ++ u32enc 16 ++ u32enc 0)
      0 [] [] 0 0).1 (by decide) (by decide)
  · exact (claim_C7_container_errors [1, 2, 3] 0 [] [] 0 0).2.1 (by decide)
  · exact (claim_C7_container_errors
      (u32enc MAGIC_NUMBER_BINARY_FORMAT ++ u32enc 2 ++ u32enc 16 ++ u32enc 999)
      0 [] [] 0 0).2.2.1 (by decide) (by decide) (by decide)
  · exact (claim_C7_container_errors [] 0 [5] [9] 0 0).2.2.2 (by decide)

/-! ## Claim C9: worker reply protocol and pool readiness -/

/-- In any event trace the pool accepts, a dispatch to a worker either finds
it in the initially ready set or follows its readiness sentinel. -/
theorem poolAccepts_dispatch_ready (tr : List PoolEvent) (rs : List Nat) (i w t : Nat)
    (hacc : poolAccepts rs tr = true) (hi : tr.get? i = some (PoolEvent.dispatch w t)) :
    w ∈ rs ∨ ∃ j, j < i ∧ tr.get? j = some (PoolEvent.ready w) := by
  induction tr generalizing rs i with
  | nil => simp at hi
  | cons ev rest ih =>
    cases ev with
    | ready w2 =>
      cases i with
      | zero => simp at hi
      | succ i2 =>
        have hacc2 : poolAccepts (w2 :: rs) rest = true := hacc
        have hi2 : rest.get? i2 = some (PoolEvent.dispatch w t) := hi
        rcases ih (w2 :: rs) i2 hacc2 hi2 with hmem | ⟨j, hj, hjt⟩
        · rcases List.mem_cons.mp hmem with hw | hw
          · right
            exact ⟨0, Nat.succ_pos i2, by rw [hw]; rfl⟩
          · left
            exact hw
        · right
          exact ⟨j + 1, by omega, hjt⟩
    | dispatch w2 t2 =>
      have hsplit : w2 ∈ rs ∧ poolAccepts rs rest = true := by
        have : (decide (w2 ∈ rs) && poolAccepts rs rest) = true := hacc
        simp at this
        exact this
      cases i with
      | zero =>
        left
        have hw : w2 = w := by
          have := Option.some.inj hi
          cases this
          rfl
        rw [← hw]
        exact hsplit.1
      | succ i2 =>
        have hi2 : rest.get? i2 = some (PoolEvent.dispatch w t) := hi
        rcases ih rs i2 hsplit.2 hi2 with hmem | ⟨j, hj, hjt⟩
        · left
          exact hmem
        · right
          exact ⟨j + 1, by omega, hjt⟩

/-- Claim C9: a decode request produces exactly one reply, which carries the
request task id and either the decoded attributes and indices or the caught
error; the readiness sentinel carries task id 0; and in any trace the
(spec-modelled) pool accepts starting with no ready workers, every dispatch
to a worker is preceded by that worker readiness sentinel, so init awaits
readiness before any real task is dispatched. -/
theorem claim_C9_worker_protocol (msg : WorkerRequest) (outcome : Except String DecodedData)
    (tr : List PoolEvent) (i w t : Nat) (hd : msg.type = "decode") :
    (workerOnMessage msg outcome).length = 1
    ∧ (∀ r ∈ workerOnMessage msg outcome, r.taskId = msg.taskId ∧ r.payload = some outcome)
    ∧ workerReadySentinel.taskId = 0
    ∧ (poolAccepts [] tr = true → tr.get? i = some (PoolEvent.dispatch w t) →
        ∃ j, j < i ∧ tr.get? j = some (PoolEvent.ready w)) := by
  refine ⟨?_, ?_, rfl, ?_⟩
  · cases outcome with
    | ok d => simp [workerOnMessage, hd]
    | error e => simp [workerOnMessage, hd]
  · intro r hr
    cases outcome with
    | ok d =>
      simp [workerOnMessage, hd] at hr
      rw [hr]
      exact ⟨rfl, rfl⟩
    | error e =>
      simp [workerOnMessage, hd] at hr
      rw [hr]
      exact ⟨rfl, rfl⟩
  · intro hacc hi
    rcases poolAccepts_dispatch_ready tr [] i w t hacc hi with hmem | hfound
    · cases hmem
    · exact hfound

/-- Witness for claim C9: a decode request with task id 5 and a successful
decode outcome, and a trace where worker 1 signals readiness before
receiving the dispatch. -/
theorem claim_C9_worker_protocol_witness :
    (workerOnMessage ⟨"decode", 5⟩ (Except.ok ⟨[("POSITION", 3)], 2⟩)).length = 1
    ∧ (∀ r ∈ workerOnMessage ⟨"decode", 5⟩ (Except.ok ⟨[("POSITION", 3)], 2⟩),
        r.taskId = 5 ∧ r.payload = some (Except.ok ⟨[("POSITION", 3)], 2⟩))
    ∧ workerReadySentinel.taskId = 0
    ∧ (poolAccepts [] [PoolEvent.ready 1, PoolEvent.dispatch 1 5] = true →
        [PoolEvent.ready 1, PoolEvent.dispatch 1 5].get? 1 = some (PoolEvent.dispatch 1 5) →
        ∃ j, j < 1 ∧ [PoolEvent.ready 1, PoolEvent.dispatch 1 5].get? j =
          some (PoolEvent.ready 1)) :=
  claim_C9_worker_protocol ⟨"decode", 5⟩ (Except.ok ⟨[("POSITION", 3)], 2⟩)
    [PoolEvent.ready 1, PoolEvent.dispatch 1 5] 1 1 5 rfl

end RevGltf
